import Mathlib

/-!
Shallow embedding of the malloy-publisher-client Python package
(src/malloy_mcp_server/api_client/client.py and models.py).

JSON values already parsed by the HTTP library are modelled by the
inductive type Json; a raw HTTP response body is a Body, which is either
valid JSON or not (response.json() raises JSONDecodeError on the latter).
Pydantic model validation is modelled by decode functions over the
key/value fields of a JSON object: pydantic ignores extra keys, so a
decoder only looks required keys up; a failed validation is the None
result, standing for the pydantic ValidationError.

The result of running a client method against one HTTP response
(status code plus body) is an Outcome: ok (the method returns), apiError
(the method raises APIError), schemaError (an uncaught pydantic
ValidationError while decoding a success body, the taxonomy name
SchemaValidationError), or pyError (any other uncaught Python exception,
recorded by its class name: JSONDecodeError, TypeError, KeyError).

Python truthiness of optional-string parameters (None and the empty
string are falsy) is modelled by pyTruthy.
-/

/-- A parsed JSON value. Numbers are modelled as integers, which covers
every numeric value appearing in the claims; an object is the parsed
Python dict, a list of key/value pairs with distinct keys. -/
inductive Json where
  | null : Json
  | bool : Bool → Json
  | num : Int → Json
  | str : String → Json
  | arr : List Json → Json
  | obj : List (String × Json) → Json

/-- A raw HTTP response body: either text that fails JSON parsing
(response.json() raises JSONDecodeError) or a parsed JSON value. -/
inductive Body where
  | notJson : String → Body
  | json : Json → Body

/-- The observable result of one client method call on one response. -/
inductive Outcome (α : Type) where
  | ok : α → Outcome α
  | apiError : Nat → String → Outcome α
  | schemaError : String → Outcome α
  | pyError : String → Outcome α

/-- Sequencing of client code after _handle_response: any raised
exception propagates, a returned value feeds the continuation. -/
def bindOutcome {α β : Type} : Outcome α → (α → Outcome β) → Outcome β
  | Outcome.ok a, f => f a
  | Outcome.apiError s m, _ => Outcome.apiError s m
  | Outcome.schemaError t, _ => Outcome.schemaError t
  | Outcome.pyError k, _ => Outcome.pyError k

/-- Python truthiness of a str-or-None value: None and "" are falsy. -/
def pyTruthy : Option String → Bool
  | none => false
  | some s => !s.isEmpty

/-- models.py Error: code, message (both required strings). -/
structure ErrorRecord where
  code : String
  message : String

/-- models.py Package: name, description (both required strings). -/
structure Package where
  name : String
  description : String

/-- models.py ModelType enumeration: source or notebook. -/
inductive ModelType where
  | source : ModelType
  | notebook : ModelType

/-- models.py Model: package_name (wire alias packageName), path, type. -/
structure Model where
  package_name : String
  path : String
  type : ModelType

/-- models.py QueryResult: data_styles, model_def, query_result, wire
aliases dataStyles, modelDef, queryResult, with populate_by_name. -/
structure QueryResult where
  data_styles : String
  model_def : String
  query_result : String

/-- Pydantic validation of Error(**fields): both code and message must
be present as strings; extra keys are ignored. -/
def decodeErrorRecord (fields : List (String × Json)) : Option ErrorRecord :=
  match List.lookup "code" fields, List.lookup "message" fields with
  | some (Json.str c), some (Json.str m) => some { code := c, message := m }
  | _, _ => none

/-- Pydantic validation of Package(**fields). -/
def decodePackage (fields : List (String × Json)) : Option Package :=
  match List.lookup "name" fields, List.lookup "description" fields with
  | some (Json.str n), some (Json.str d) => some { name := n, description := d }
  | _, _ => none

/-- ModelType accepts only its literal string values. -/
def decodeModelType : String → Option ModelType
  | "source" => some ModelType.source
  | "notebook" => some ModelType.notebook
  | _ => none

/-- Pydantic validation of Model(**fields): Model declares no
populate_by_name, so package_name is read through its wire alias
packageName only. -/
def decodeModel (fields : List (String × Json)) : Option Model :=
  match List.lookup "packageName" fields, List.lookup "path" fields,
      List.lookup "type" fields with
  | some (Json.str pn), some (Json.str pa), some (Json.str ty) =>
    match decodeModelType ty with
    | some t => some { package_name := pn, path := pa, type := t }
    | none => none
  | _, _, _ => none

/-- Field lookup for a model with populate_by_name: the wire alias is
tried first, then the field name itself. -/
def lookupAliased (fields : List (String × Json)) (wire fieldName : String) :
    Option Json :=
  match List.lookup wire fields with
  | some v => some v
  | none => List.lookup fieldName fields

/-- Pydantic validation of QueryResult(**fields) (populate_by_name). -/
def decodeQueryResult (fields : List (String × Json)) : Option QueryResult :=
  match lookupAliased fields "dataStyles" "data_styles",
      lookupAliased fields "modelDef" "model_def",
      lookupAliased fields "queryResult" "query_result" with
  | some (Json.str ds), some (Json.str md), some (Json.str qr) =>
    some { data_styles := ds, model_def := md, query_result := qr }
  | _, _, _ => none

/-- Stands for str(e) of the pydantic ValidationError raised while
validating the named model against the given fields: an opaque,
deterministic piece of text describing the decode failure. -/
def validationText (model : String) (fields : List (String × Json)) : String :=
  "validation error for " ++ model ++ " on " ++ toString fields.length ++ " fields"

/-- client.py HTTP_ERROR_STATUS. -/
def HTTP_ERROR_STATUS : Nat := 400

/-- client.py MalloyAPIClient._handle_response, applied to a response
with the given status code and body.

If status >= 400: response.json() is parsed (JSONDecodeError propagates
on a non-JSON body); Error(**data) needs data to be a dict, otherwise
the keyword unpacking raises TypeError; a dict that validates as Error
raises APIError(status, error.message); a dict that fails validation
raises the ValidationError, caught and rewrapped as
APIError(status, str(e)). If status < 400, the parsed JSON is returned
(JSONDecodeError still propagates on a non-JSON body). -/
def handleResponse (status : Nat) (body : Body) : Outcome Json :=
  if HTTP_ERROR_STATUS ≤ status then
    match body with
    | Body.notJson _ => Outcome.pyError "JSONDecodeError"
    | Body.json (Json.obj fields) =>
      match decodeErrorRecord fields with
      | some e => Outcome.apiError status e.message
      | none => Outcome.apiError status (validationText "Error" fields)
    | Body.json _ => Outcome.pyError "TypeError"
  else
    match body with
    | Body.notJson _ => Outcome.pyError "JSONDecodeError"
    | Body.json v => Outcome.ok v

/-- Python dict assignment d[k] = v on an association list: overwrite
the existing entry for k in place, or append a fresh one. -/
def setKey (k : String) (v : Json) : List (String × Json) → List (String × Json)
  | [] => [(k, v)]
  | kv :: rest => if kv.1 == k then (k, v) :: rest else kv :: setKey k v rest

/-- Python dict d.pop(k) after a successful lookup: drop the entry. -/
def removeKey (k : String) (fields : List (String × Json)) :
    List (String × Json) :=
  fields.filter (fun kv => !(kv.1 == k))

/-- client.py get_package request parameters: versionId is attached if
the version_id argument is truthy (non-None and non-empty). -/
def get_package_params : Option String → List (String × String)
  | some v => if v.isEmpty then [] else [("versionId", v)]
  | none => []

/-- client.py list_models request parameters (same truthiness rule). -/
def list_models_params : Option String → List (String × String)
  | some v => if v.isEmpty then [] else [("versionId", v)]
  | none => []

/-- client.py list_databases request parameters (same truthiness rule). -/
def list_databases_params : Option String → List (String × String)
  | some v => if v.isEmpty then [] else [("versionId", v)]
  | none => []

/-- client.py list_schedules request parameters (same truthiness rule). -/
def list_schedules_params : Option String → List (String × String)
  | some v => if v.isEmpty then [] else [("versionId", v)]
  | none => []

/-- client.py get_package, code after _handle_response:
Package(**data); an uncaught ValidationError on a success body is the
schemaError outcome, keyword-unpacking a non-dict raises TypeError. -/
def getPackageData (data : Json) : Outcome Package :=
  match data with
  | Json.obj fields =>
    match decodePackage fields with
    | some p => Outcome.ok p
    | none => Outcome.schemaError (validationText "Package" fields)
  | _ => Outcome.pyError "TypeError"

/-- client.py get_package, response side. -/
def get_package (status : Nat) (body : Body) : Outcome Package :=
  bindOutcome (handleResponse status body) getPackageData

/-- client.py list_models, stamping loop: for model in data,
model["packageName"] = package_name. Item assignment on a non-dict
element raises TypeError, modelled as the None result. -/
def stampModels (pkg : String) : List Json → Option (List Json)
  | [] => some []
  | Json.obj f :: rest =>
    (stampModels pkg rest).map
      (fun rs => Json.obj (setKey "packageName" (Json.str pkg) f) :: rs)
  | _ :: _ => none

/-- List comprehension [Model(**model) for model in data]: the first
validation failure aborts the whole call. -/
def decodeModels : List Json → Option (List Model)
  | [] => some []
  | Json.obj f :: rest =>
    match decodeModel f, decodeModels rest with
    | some m, some ms => some (m :: ms)
    | _, _ => none
  | _ :: _ => none

/-- client.py list_models, code after _handle_response: each element of
the returned array is stamped with packageName := package_name and
validated as a Model. Iterating a non-array body and then
item-assigning raises TypeError. -/
def listModelsData (package_name : String) (data : Json) :
    Outcome (List Model) :=
  match data with
  | Json.arr items =>
    match stampModels package_name items with
    | some stamped =>
      match decodeModels stamped with
      | some ms => Outcome.ok ms
      | none => Outcome.schemaError (validationText "Model" [])
    | none => Outcome.pyError "TypeError"
  | _ => Outcome.pyError "TypeError"

/-- client.py list_models, response side. -/
def list_models (package_name : String) (status : Nat) (body : Body) :
    Outcome (List Model) :=
  bindOutcome (handleResponse status body) (listModelsData package_name)

/-- client.py get_model, code after _handle_response:
data["path"] = data.pop("modelPath") (KeyError when the key is absent),
data["packageName"] = package_name, and Model(**data). -/
def getModelData (package_name : String) (data : Json) : Outcome Model :=
  match data with
  | Json.obj fields =>
    match List.lookup "modelPath" fields with
    | none => Outcome.pyError "KeyError"
    | some mp =>
      match decodeModel (setKey "packageName" (Json.str package_name)
          (setKey "path" mp (removeKey "modelPath" fields))) with
      | some m => Outcome.ok m
      | none => Outcome.schemaError (validationText "Model" fields)
  | _ => Outcome.pyError "TypeError"

/-- client.py get_model, response side. -/
def get_model (package_name : String) (status : Nat) (body : Body) :
    Outcome Model :=
  bindOutcome (handleResponse status body) (getModelData package_name)

/-- client.py QueryParams dataclass. -/
structure QueryParams where
  project_name : String
  package_name : String
  path : String
  query : Option String := none
  source_name : Option String := none
  query_name : Option String := none
  version_id : Option String := none

/-- client.py execute_query, pre-network phase: the two validation
rules (raising ValueError, modelled as Except.error), then the request
parameter dict {versionId, query, sourceName, queryName} with the
None-valued entries filtered out. A successful result is the exact list
of query parameters handed to the HTTP GET. -/
def executeQueryRequest (p : QueryParams) : Except String (List (String × String)) :=
  if pyTruthy p.query && pyTruthy p.query_name then
    Except.error "Cannot specify both query and query_name parameters"
  else if pyTruthy p.query_name && !pyTruthy p.source_name then
    Except.error "source_name is required when query_name is specified"
  else
    Except.ok (([("versionId", p.version_id), ("query", p.query),
      ("sourceName", p.source_name), ("queryName", p.query_name)] :
        List (String × Option String)).filterMap
      (fun kv => kv.2.map (fun v => (kv.1, v))))

/-- client.py execute_query, code after _handle_response:
QueryResult(**data). -/
def executeQueryData (data : Json) : Outcome QueryResult :=
  match data with
  | Json.obj fields =>
    match decodeQueryResult fields with
    | some r => Outcome.ok r
    | none => Outcome.schemaError (validationText "QueryResult" fields)
  | _ => Outcome.pyError "TypeError"

/-- client.py execute_query, full pipeline. The server is modelled as a
function from the sent query parameters to the HTTP response; it is
consulted only when validation passes, so a ValueError (Except.error)
proves no request was made. The except httpx.HTTPStatusError block of
the source is unreachable (neither client.get nor _handle_response
raises that class) and is therefore absent here. -/
def execute_query (p : QueryParams)
    (server : List (String × String) → Nat × Body) :
    Except String (Outcome QueryResult) :=
  (executeQueryRequest p).map fun reqParams =>
    bindOutcome (handleResponse (server reqParams).1 (server reqParams).2)
      executeQueryData

/-- Follows the words of the spec (section 4.2, rule 3): the query params
sent to the server are exactly {versionId, query, sourceName,
queryName} restricted to the non-empty subset. -/
def specNonEmptyQueryParams (p : QueryParams) : List (String × String) :=
  ([("versionId", p.version_id), ("query", p.query),
    ("sourceName", p.source_name), ("queryName", p.query_name)] :
      List (String × Option String)).filterMap
    (fun kv => match kv.2 with
      | some v => if v.isEmpty then none else some (kv.1, v)
      | none => none)

/-- models.py DatabaseType enumeration. -/
inductive DatabaseType where
  | postgres : DatabaseType
  | bigquery : DatabaseType
  | snowflake : DatabaseType
  | trino : DatabaseType

/-- DatabaseType accepts only its literal string values. -/
def decodeDatabaseType : String → Option DatabaseType
  | "postgres" => some DatabaseType.postgres
  | "bigquery" => some DatabaseType.bigquery
  | "snowflake" => some DatabaseType.snowflake
  | "trino" => some DatabaseType.trino
  | _ => none

/-- models.py PostgresConnection. -/
structure PostgresConnection where
  host : String
  port : Int
  database_name : String
  user_name : String
  password : String
  connection_string : String

/-- models.py BigqueryConnection. -/
structure BigqueryConnection where
  default_project_id : String
  billing_project_id : String
  location : String
  service_account_key_json : String
  maximum_bytes_billed : String
  query_timeout_milliseconds : String

/-- models.py SnowflakeConnection (schema_name has wire alias schema). -/
structure SnowflakeConnection where
  account : String
  username : String
  password : String
  warehouse : String
  database : String
  schema_name : String
  response_timeout_milliseconds : Int

/-- models.py TrinoConnection (schema_name has wire alias schema; port
is a float on the wire, integral values are the ones modelled). -/
structure TrinoConnection where
  server : String
  port : Int
  catalog : String
  schema_name : String
  user : String
  password : String

/-- models.py Connection: a name, a type discriminant, and four
independent optional sub-connection records. -/
structure Connection where
  name : String
  type : DatabaseType
  postgres_connection : Option PostgresConnection := none
  bigquery_connection : Option BigqueryConnection := none
  snowflake_connection : Option SnowflakeConnection := none
  trino_connection : Option TrinoConnection := none

/-- Pydantic validation of PostgresConnection(**fields). -/
def decodePostgresConnection (fields : List (String × Json)) :
    Option PostgresConnection :=
  match List.lookup "host" fields, List.lookup "port" fields,
      List.lookup "databaseName" fields, List.lookup "userName" fields,
      List.lookup "password" fields, List.lookup "connectionString" fields with
  | some (Json.str h), some (Json.num p), some (Json.str dn),
      some (Json.str un), some (Json.str pw), some (Json.str cs) =>
    some { host := h, port := p, database_name := dn, user_name := un,
           password := pw, connection_string := cs }
  | _, _, _, _, _, _ => none

/-- Pydantic validation of BigqueryConnection(**fields). -/
def decodeBigqueryConnection (fields : List (String × Json)) :
    Option BigqueryConnection :=
  match List.lookup "defaultProjectId" fields,
      List.lookup "billingProjectId" fields, List.lookup "location" fields,
      List.lookup "serviceAccountKeyJson" fields,
      List.lookup "maximumBytesBilled" fields,
      List.lookup "queryTimeoutMilliseconds" fields with
  | some (Json.str dp), some (Json.str bp), some (Json.str lo),
      some (Json.str sa), some (Json.str mb), some (Json.str qt) =>
    some { default_project_id := dp, billing_project_id := bp, location := lo,
           service_account_key_json := sa, maximum_bytes_billed := mb,
           query_timeout_milliseconds := qt }
  | _, _, _, _, _, _ => none

/-- Pydantic validation of SnowflakeConnection(**fields). -/
def decodeSnowflakeConnection (fields : List (String × Json)) :
    Option SnowflakeConnection :=
  match List.lookup "account" fields, List.lookup "username" fields,
      List.lookup "password" fields, List.lookup "warehouse" fields,
      List.lookup "database" fields, List.lookup "schema" fields,
      List.lookup "responseTimeoutMilliseconds" fields with
  | some (Json.str ac), some (Json.str un), some (Json.str pw),
      some (Json.str wh), some (Json.str db), some (Json.str sn),
      some (Json.num rt) =>
    some { account := ac, username := un, password := pw, warehouse := wh,
           database := db, schema_name := sn,
           response_timeout_milliseconds := rt }
  | _, _, _, _, _, _, _ => none

/-- Pydantic validation of TrinoConnection(**fields). -/
def decodeTrinoConnection (fields : List (String × Json)) :
    Option TrinoConnection :=
  match List.lookup "server" fields, List.lookup "port" fields,
      List.lookup "catalog" fields, List.lookup "schema" fields,
      List.lookup "user" fields, List.lookup "password" fields with
  | some (Json.str sv), some (Json.num po), some (Json.str ca),
      some (Json.str sn), some (Json.str us), some (Json.str pw) =>
    some { server := sv, port := po, catalog := ca, schema_name := sn,
           user := us, password := pw }
  | _, _, _, _, _, _ => none

/-- An Optional sub-record field with default None: an absent or null
wire key yields none; a present object must validate; anything else
fails the whole validation. -/
def decodeOptSubRecord {α : Type}
    (d : List (String × Json) → Option α)
    (fields : List (String × Json)) (k : String) : Option (Option α) :=
  match List.lookup k fields with
  | none => some none
  | some Json.null => some none
  | some (Json.obj f) =>
    match d f with
    | some a => some (some a)
    | none => none
  | some _ => none

/-- Pydantic validation of Connection(**fields): name, a type
discriminant, and each sub-connection validated independently. No rule
relates the discriminant to which sub-connection is populated. -/
def decodeConnection (fields : List (String × Json)) : Option Connection :=
  match List.lookup "name" fields, List.lookup "type" fields with
  | some (Json.str nm), some (Json.str ty) =>
    match decodeDatabaseType ty with
    | some t =>
      match decodeOptSubRecord decodePostgresConnection fields "postgresConnection",
          decodeOptSubRecord decodeBigqueryConnection fields "bigqueryConnection",
          decodeOptSubRecord decodeSnowflakeConnection fields "snowflakeConnection",
          decodeOptSubRecord decodeTrinoConnection fields "trinoConnection" with
      | some pg, some bq, some sf, some tr =>
        some { name := nm, type := t, postgres_connection := pg,
               bigquery_connection := bq, snowflake_connection := sf,
               trino_connection := tr }
      | _, _, _, _ => none
    | none => none
  | _, _ => none

/-- The underlying httpx transport handle, reduced to its open/closed
state. Modelled from the spec: the transport is an externally supplied
capability (section 1) whose close releases the connection pool, is
accepted in any state and never raises (section 5). -/
structure HttpxClient where
  is_closed : Bool

/-- Transport close: mark closed; a second call is a no-op. -/
def HttpxClient.close (_ : HttpxClient) : HttpxClient :=
  { is_closed := true }

/-- client.py MalloyAPIClient handle state: base URL, optional key and
the owned transport. -/
structure MalloyAPIClient where
  base_url : String
  api_key : Option String
  client : HttpxClient

/-- client.py MalloyAPIClient.close: delegates to the transport close. -/
def MalloyAPIClient.close (c : MalloyAPIClient) : MalloyAPIClient :=
  { c with client := c.client.close }

/-- How the body of a with-statement over the client finishes. -/
inductive WithExit where
  | normal : WithExit
  | raised : String → WithExit

/-- client.py MalloyAPIClient.__exit__: the exception info is ignored
and self.close() is invoked; the returned Nat counts the close()
invocations this call performs. -/
def exitDunder (c : MalloyAPIClient) (_ : Option String) :
    MalloyAPIClient × Nat :=
  (c.close, 1)

/-- Python with-statement over the client: __enter__ returns self, the
body runs to its exit, __exit__ runs exactly once with the exception
info; __exit__ returns None (falsy), so a raised exception propagates.
Result: final client state, number of close() invocations, and the
propagated body exit. -/
def withClient (c : MalloyAPIClient) (bodyExit : WithExit) :
    MalloyAPIClient × Nat × WithExit :=
  let entered := c
  let info : Option String :=
    match bodyExit with
    | WithExit.normal => none
    | WithExit.raised e => some e
  let closed := exitDunder entered info
  (closed.1, closed.2, bodyExit)

theorem lookup_setKey_self (k : String) (v : Json) (f : List (String × Json)) :
    List.lookup k (setKey k v f) = some v := by
  induction f with
  | nil => simp [setKey, List.lookup]
  | cons kv rest ih =>
    by_cases h : kv.1 = k
    · simp [setKey, h, List.lookup]
    · have hk : (k == kv.1) = false := beq_eq_false_iff_ne.mpr (fun e => h e.symm)
      simp [setKey, h, List.lookup, hk, ih]

theorem lookup_setKey_of_ne (k k2 : String) (v : Json) (f : List (String × Json))
    (hne : k ≠ k2) : List.lookup k (setKey k2 v f) = List.lookup k f := by
  have hk : (k == k2) = false := beq_eq_false_iff_ne.mpr hne
  induction f with
  | nil => simp [setKey, List.lookup, hk]
  | cons kv rest ih =>
    by_cases h : kv.1 = k2
    · have hk2 : (k == kv.1) = false := by rw [h]; exact hk
      simp [setKey, h, List.lookup, hk, hk2]
    · have h2 : (kv.1 == k2) = false := beq_eq_false_iff_ne.mpr h
      by_cases h3 : k = kv.1
      · simp [setKey, h2, List.lookup, h3, ih]
      · have hk3 : (k == kv.1) = false := beq_eq_false_iff_ne.mpr h3
        simp [setKey, h2, List.lookup, hk3, ih]

theorem decodeModel_lookup_fields (fields : List (String × Json)) (m : Model)
    (h : decodeModel fields = some m) :
    List.lookup "packageName" fields = some (Json.str m.package_name) ∧
    List.lookup "path" fields = some (Json.str m.path) := by
  unfold decodeModel at h
  split at h
  · split at h
    · injection h with h2
      subst h2
      exact ⟨by assumption, by assumption⟩
    · exact Option.noConfusion h
  · exact Option.noConfusion h

/-- C1: for every QueryParams input in which both query and query_name
are non-empty, regardless of the other fields and of whatever the server
would answer, execute_query raises ValueError (a caller-input error,
not APIError) — the Except.error result shows the server function is
never consulted, so no network request is sent. -/
theorem execute_query_rejects_query_and_query_name (p : QueryParams)
    (server : List (String × String) → Nat × Body)
    (hq : pyTruthy p.query = true) (hn : pyTruthy p.query_name = true) :
    execute_query p server =
      Except.error "Cannot specify both query and query_name parameters" := by
  simp [execute_query, executeQueryRequest, hq, hn, Except.map]

/-- Witness for C1 at a concrete input. -/
theorem execute_query_rejects_query_and_query_name_witness :
    execute_query
      { project_name := "home", package_name := "faa", path := "flights.malloy",
        query := some "test query", query_name := some "test_query" }
      (fun _ => (200, Body.json (Json.obj []))) =
      Except.error "Cannot specify both query and query_name parameters" :=
  execute_query_rejects_query_and_query_name _ _ rfl rfl

/-- C2: for every QueryParams input in which query_name is non-empty
and source_name is empty or absent, execute_query raises ValueError
before any network request is sent (whichever the other fields, one of
the two validation rules fires). -/
theorem execute_query_rejects_unsourced_query_name (p : QueryParams)
    (server : List (String × String) → Nat × Body)
    (hn : pyTruthy p.query_name = true)
    (hs : pyTruthy p.source_name = false) :
    ∃ msg, execute_query p server = Except.error msg := by
  by_cases hq : pyTruthy p.query = true
  · exact ⟨"Cannot specify both query and query_name parameters",
      by simp [execute_query, executeQueryRequest, hq, hn, Except.map]⟩
  · exact ⟨"source_name is required when query_name is specified",
      by simp [execute_query, executeQueryRequest, hq, hn, hs, Except.map]⟩

/-- Witness for C2 at a concrete input. -/
theorem execute_query_rejects_unsourced_query_name_witness :
    ∃ msg, execute_query
      { project_name := "home", package_name := "faa", path := "flights.malloy",
        query_name := some "test_query" }
      (fun _ => (200, Body.json (Json.obj []))) = Except.error msg :=
  execute_query_rejects_unsourced_query_name _ _ rfl rfl

/-- A QueryParams input that passes both validation rules and carries a
present-but-empty version_id. -/
def emptyVersionParams : QueryParams :=
  { project_name := "home", package_name := "faa", path := "flights.malloy",
    version_id := some "" }

/-- C3 counterexample: the input passes validation, yet the parameter
list handed to the HTTP GET contains the empty-string pair
(versionId, "") — the filter of the source drops None values only, so
the request is not the non-empty subset the claim describes. -/
theorem executeQueryRequest_sends_empty_string :
    executeQueryRequest emptyVersionParams = Except.ok [("versionId", "")] ∧
    specNonEmptyQueryParams emptyVersionParams = [] ∧
    executeQueryRequest emptyVersionParams ≠
      Except.ok (specNonEmptyQueryParams emptyVersionParams) := by
  refine ⟨rfl, rfl, ?_⟩
  rw [show specNonEmptyQueryParams emptyVersionParams = [] from rfl,
    show executeQueryRequest emptyVersionParams =
      Except.ok [("versionId", "")] from rfl]
  simp

/-- C3 amended: for every QueryParams input on which execute_query
reaches the network, the query parameters sent are exactly the subset
of {versionId, query, sourceName, queryName} whose values are non-None
(present): absent fields never appear, but a present empty-string value
is sent. -/
theorem executeQueryRequest_sends_exactly_nonNone (p : QueryParams)
    (sent : List (String × String))
    (h : executeQueryRequest p = Except.ok sent) :
    ∀ k v, (k, v) ∈ sent ↔
      ((k = "versionId" ∧ p.version_id = some v) ∨
       (k = "query" ∧ p.query = some v) ∨
       (k = "sourceName" ∧ p.source_name = some v) ∨
       (k = "queryName" ∧ p.query_name = some v)) := by
  intro k v
  unfold executeQueryRequest at h
  split at h
  · exact Except.noConfusion h
  · split at h
    · exact Except.noConfusion h
    · injection h with h2
      subst h2
      rcases hV : p.version_id with _ | a <;> rcases hQ : p.query with _ | b <;>
        rcases hS : p.source_name with _ | c <;>
        rcases hN : p.query_name with _ | d <;>
        simp [hV, hQ, hS, hN, List.filterMap, eq_comm, and_comm, or_comm]

/-- Witness for the amended C3 at a concrete input. -/
theorem executeQueryRequest_sends_exactly_nonNone_witness :
    ("query", "q") ∈ [("query", "q")] ↔
      (("query" = "versionId" ∧ (none : Option String) = some "q") ∨
       ("query" = "query" ∧ (some "q" : Option String) = some "q") ∨
       ("query" = "sourceName" ∧ (none : Option String) = some "q") ∨
       ("query" = "queryName" ∧ (none : Option String) = some "q")) :=
  executeQueryRequest_sends_exactly_nonNone
    { project_name := "home", package_name := "faa", path := "flights.malloy",
      query := some "q" } [("query", "q")] rfl "query" "q"

/-- C4: for every response with status at least 400 whose body is a
JSON object validating as Error, _handle_response raises APIError with
exactly that status code and the message field of the body; get_package
(as one operation built on it) propagates the same APIError. -/
theorem handleResponse_error_body (status : Nat) (fields : List (String × Json))
    (c m : String) (hs : HTTP_ERROR_STATUS ≤ status)
    (hc : List.lookup "code" fields = some (Json.str c))
    (hm : List.lookup "message" fields = some (Json.str m)) :
    handleResponse status (Body.json (Json.obj fields)) =
      Outcome.apiError status m ∧
    get_package status (Body.json (Json.obj fields)) =
      Outcome.apiError status m := by
  have hd : decodeErrorRecord fields = some { code := c, message := m } := by
    unfold decodeErrorRecord
    rw [hc, hm]
  have h1 : handleResponse status (Body.json (Json.obj fields)) =
      Outcome.apiError status m := by
    simp [handleResponse, hs, hd]
  exact ⟨h1, by simp [get_package, h1, bindOutcome]⟩

/-- Witness for C4: status 404 with the NOT_FOUND body of the spec. -/
theorem handleResponse_error_body_witness :
    handleResponse 404 (Body.json (Json.obj
      [("code", Json.str "NOT_FOUND"), ("message", Json.str "no such package")])) =
      Outcome.apiError 404 "no such package" ∧
    get_package 404 (Body.json (Json.obj
      [("code", Json.str "NOT_FOUND"), ("message", Json.str "no such package")])) =
      Outcome.apiError 404 "no such package" :=
  handleResponse_error_body 404
    [("code", Json.str "NOT_FOUND"), ("message", Json.str "no such package")]
    "NOT_FOUND" "no such package" (by decide) rfl rfl

/-- C5 counterexample: a status-500 response whose body is the JSON
array [] does not decode as an Error record, yet the operation does not
raise APIError: Error(**data) on a non-dict raises an uncaught
TypeError. A body that is not JSON at all likewise escapes with the
JSONDecodeError of response.json(). -/
theorem handleResponse_malformed_body_not_apiError :
    handleResponse 500 (Body.json (Json.arr [])) = Outcome.pyError "TypeError" ∧
    (∀ m, handleResponse 500 (Body.json (Json.arr [])) ≠
      Outcome.apiError 500 m) ∧
    handleResponse 500 (Body.notJson "oops") =
      Outcome.pyError "JSONDecodeError" := by
  refine ⟨rfl, ?_, rfl⟩
  intro m h
  rw [show handleResponse 500 (Body.json (Json.arr [])) =
    Outcome.pyError "TypeError" from rfl] at h
  exact Outcome.noConfusion h

/-- C5 amended: for every response with status at least 400 whose body
is a JSON object that fails to validate as an Error record, the caught
ValidationError is rewrapped as APIError with the original status code
and the decode-failure text as the message; bodies at status at least
400 that are not JSON objects escape with a different, non-APIError
exception instead. -/
theorem handleResponse_object_decode_failure (status : Nat)
    (fields : List (String × Json)) (hs : HTTP_ERROR_STATUS ≤ status)
    (hd : decodeErrorRecord fields = none) :
    handleResponse status (Body.json (Json.obj fields)) =
      Outcome.apiError status (validationText "Error" fields) := by
  simp [handleResponse, hs, hd]

/-- Witness for the amended C5: status 500 with a body missing the
message field. -/
theorem handleResponse_object_decode_failure_witness :
    handleResponse 500 (Body.json (Json.obj [("code", Json.str "X")])) =
      Outcome.apiError 500
        (validationText "Error" [("code", Json.str "X")]) :=
  handleResponse_object_decode_failure 500 [("code", Json.str "X")]
    (by decide) rfl

/-- C6: for every response with status below 400 whose JSON-object body
is missing the required description field, get_package surfaces the
pydantic ValidationError (the SchemaValidationError of the taxonomy),
which is a distinct outcome from APIError, and never a decoded
Package. -/
theorem get_package_missing_field_schema_error (status : Nat)
    (fields : List (String × Json)) (hs : status < HTTP_ERROR_STATUS)
    (hd : List.lookup "description" fields = none) :
    get_package status (Body.json (Json.obj fields)) =
      Outcome.schemaError (validationText "Package" fields) ∧
    (∀ s m, get_package status (Body.json (Json.obj fields)) ≠
      Outcome.apiError s m) ∧
    (∀ p, get_package status (Body.json (Json.obj fields)) ≠
      Outcome.ok p) := by
  have hns : ¬ HTTP_ERROR_STATUS ≤ status := by omega
  have hdp : decodePackage fields = none := by
    unfold decodePackage
    rw [hd]
    rcases List.lookup "name" fields with _ | j
    · rfl
    · cases j <;> rfl
  have heq : get_package status (Body.json (Json.obj fields)) =
      Outcome.schemaError (validationText "Package" fields) := by
    simp [get_package, handleResponse, hns, hdp, bindOutcome, getPackageData]
  refine ⟨heq, ?_, ?_⟩
  · intro s m h
    rw [heq] at h
    exact Outcome.noConfusion h
  · intro p h
    rw [heq] at h
    exact Outcome.noConfusion h

/-- Witness for C6: status 200 with a Package body missing
description. -/
theorem get_package_missing_field_schema_error_witness :
    get_package 200 (Body.json (Json.obj [("name", Json.str "faa")])) =
      Outcome.schemaError (validationText "Package" [("name", Json.str "faa")]) ∧
    (∀ s m, get_package 200 (Body.json (Json.obj [("name", Json.str "faa")])) ≠
      Outcome.apiError s m) ∧
    (∀ p, get_package 200 (Body.json (Json.obj [("name", Json.str "faa")])) ≠
      Outcome.ok p) :=
  get_package_missing_field_schema_error 200 [("name", Json.str "faa")]
    (by decide) rfl

/-- A wire Connection object whose type discriminant says postgres
while the populated sub-connection field is trinoConnection. -/
def mismatchedConnectionWire : List (String × Json) :=
  [("name", Json.str "warehouse"), ("type", Json.str "postgres"),
   ("trinoConnection", Json.obj
     [("server", Json.str "trino.local"), ("port", Json.num 8080),
      ("catalog", Json.str "hive"), ("schema", Json.str "default"),
      ("user", Json.str "etl"), ("password", Json.str "pw")])]

/-- The record that wire object decodes to, kept as-is. -/
def mismatchedConnection : Connection :=
  { name := "warehouse", type := DatabaseType.postgres,
    trino_connection := some
      { server := "trino.local", port := 8080, catalog := "hive",
        schema_name := "default", user := "etl", password := "pw" } }

/-- C8: Connection decoding enforces no tagged-union consistency: the
wire object above, whose discriminant names postgres while only
trinoConnection is populated, decodes successfully and is returned
as-is. -/
theorem decodeConnection_accepts_type_mismatch :
    decodeConnection mismatchedConnectionWire = some mismatchedConnection ∧
    mismatchedConnection.type = DatabaseType.postgres ∧
    mismatchedConnection.postgres_connection = none ∧
    mismatchedConnection.trino_connection.isSome = true :=
  ⟨rfl, rfl, rfl, rfl⟩

/-- C9: MalloyAPIClient.close is idempotent — a second call is again a
plain total state transition (no exception) and leaves the client in
the same closed state — and the with-statement over the client invokes
close exactly once whether the body raises or returns, closing the
transport and propagating the body exit. -/
theorem close_idempotent_and_scoped (c : MalloyAPIClient) (e : String) :
    c.close.close = c.close ∧
    c.close.client.is_closed = true ∧
    withClient c (WithExit.raised e) = (c.close, 1, WithExit.raised e) ∧
    withClient c WithExit.normal = (c.close, 1, WithExit.normal) :=
  ⟨rfl, rfl, rfl, rfl⟩

/-- C10: for get_package, list_models, list_databases and
list_schedules, the versionId query parameter is attached exactly when
the version_id argument is non-None and non-empty (so some "" sends
nothing), the four methods build identical parameter dicts, while
execute_query with version_id = some "" does include (versionId, "")
in the request. -/
theorem versionId_param_truthiness (vid : Option String) (pr pk pa : String) :
    ((∃ v, ("versionId", v) ∈ get_package_params vid) ↔
      (∃ s, vid = some s ∧ s ≠ "")) ∧
    list_models_params vid = get_package_params vid ∧
    list_databases_params vid = get_package_params vid ∧
    list_schedules_params vid = get_package_params vid ∧
    get_package_params (some "") = [] ∧
    executeQueryRequest
      (QueryParams.mk pr pk pa none none none (some "")) =
      Except.ok [("versionId", "")] := by
  refine ⟨?_, ?_, ?_, ?_, rfl, rfl⟩
  · rcases vid with _ | s
    · simp [get_package_params]
    · by_cases h : s = ""
      · subst h
        simp [get_package_params, show "".isEmpty = true from rfl]
      · simp [get_package_params, h, String.isEmpty_iff]
  · rcases vid with _ | s <;> simp [list_models_params, get_package_params]
  · rcases vid with _ | s <;> simp [list_databases_params, get_package_params]
  · rcases vid with _ | s <;> simp [list_schedules_params, get_package_params]

theorem bindOutcome_eq_ok {α β : Type} (x : Outcome α) (f : α → Outcome β)
    (b : β) (h : bindOutcome x f = Outcome.ok b) :
    ∃ a, x = Outcome.ok a ∧ f a = Outcome.ok b := by
  cases x with
  | ok a => exact ⟨a, rfl, h⟩
  | apiError s m => exact Outcome.noConfusion h
  | schemaError t => exact Outcome.noConfusion h
  | pyError k => exact Outcome.noConfusion h

theorem handleResponse_eq_ok (status : Nat) (body : Body) (d : Json)
    (h : handleResponse status body = Outcome.ok d) : body = Body.json d := by
  unfold handleResponse at h
  split at h
  · cases body with
    | notJson s => exact Outcome.noConfusion h
    | json v =>
      cases v with
      | obj fields =>
        rcases hde : decodeErrorRecord fields with _ | e <;> simp [hde] at h
      | null => exact Outcome.noConfusion h
      | bool b => exact Outcome.noConfusion h
      | num n => exact Outcome.noConfusion h
      | str s => exact Outcome.noConfusion h
      | arr xs => exact Outcome.noConfusion h
  · cases body with
    | notJson s => exact Outcome.noConfusion h
    | json v =>
      injection h with h2
      rw [h2]

theorem stampModels_decodeModels_package_name (pkg : String) :
    ∀ (items stamped : List Json) (ms : List Model),
      stampModels pkg items = some stamped →
      decodeModels stamped = some ms →
      ∀ m ∈ ms, m.package_name = pkg := by
  intro items
  induction items with
  | nil =>
    intro stamped ms h1 h2 m hm
    simp only [stampModels, Option.some.injEq] at h1
    subst h1
    simp only [decodeModels, Option.some.injEq] at h2
    subst h2
    simp at hm
  | cons it rest ih =>
    intro stamped ms h1 h2 m hm
    cases it with
    | obj f =>
      rcases hrest : stampModels pkg rest with _ | rs <;>
        simp only [stampModels, hrest, Option.map_none, Option.map_some] at h1
      · exact Option.noConfusion h1
      · injection h1 with h1
        subst h1
        simp only [decodeModels] at h2
        rcases hdm : decodeModel (setKey "packageName" (Json.str pkg) f)
            with _ | m0 <;> rw [hdm] at h2
        · exact Option.noConfusion h2
        · rcases hdr : decodeModels rs with _ | ms0 <;> rw [hdr] at h2
          · exact Option.noConfusion h2
          · injection h2 with h2
            subst h2
            rcases List.mem_cons.mp hm with rfl | hm2
            · have hl := (decodeModel_lookup_fields _ _ hdm).1
              rw [lookup_setKey_self] at hl
              injection hl with hl
              injection hl with hl
              exact hl.symm
            · exact ih rs ms0 hrest hdr m hm2
    | null => simp [stampModels] at h1
    | bool b => simp [stampModels] at h1
    | num n => simp [stampModels] at h1
    | str s => simp [stampModels] at h1
    | arr xs => simp [stampModels] at h1

/-- C7: whenever get_model returns a Model, its package_name is the
package_name argument the caller supplied and its path is exactly the
value the wire carried under modelPath (the rename happens before
decoding); and whenever list_models returns models, every one of them
carries the supplied package_name, stamped in before validation. -/
theorem get_model_rename_and_stamp :
    (∀ (pkg : String) (status : Nat) (fields : List (String × Json)) (m : Model),
      get_model pkg status (Body.json (Json.obj fields)) = Outcome.ok m →
        m.package_name = pkg ∧
        List.lookup "modelPath" fields = some (Json.str m.path)) ∧
    (∀ (pkg : String) (status : Nat) (body : Body) (ms : List Model),
      list_models pkg status body = Outcome.ok ms →
        ∀ m ∈ ms, m.package_name = pkg) := by
  constructor
  · intro pkg status fields m h
    unfold get_model at h
    obtain ⟨d, hd1, hd2⟩ := bindOutcome_eq_ok _ _ _ h
    have hb := handleResponse_eq_ok _ _ _ hd1
    injection hb with hb
    subst hb
    simp only [getModelData] at hd2
    rcases hmp : List.lookup "modelPath" fields with _ | mp <;>
      simp only [hmp] at hd2
    · exact Outcome.noConfusion hd2
    · rcases hdm : decodeModel (setKey "packageName" (Json.str pkg)
          (setKey "path" mp (removeKey "modelPath" fields))) with _ | m0 <;>
        simp only [hdm] at hd2
      · exact Outcome.noConfusion hd2
      · injection hd2 with hd2
        subst hd2
        obtain ⟨hl1, hl2⟩ := decodeModel_lookup_fields _ _ hdm
        rw [lookup_setKey_self] at hl1
        injection hl1 with hl1
        injection hl1 with hl1
        rw [lookup_setKey_of_ne _ _ _ _ (by decide), lookup_setKey_self] at hl2
        injection hl2 with hl2
        refine ⟨hl1.symm, ?_⟩
        rw [hl2]
  · intro pkg status body ms h
    unfold list_models at h
    obtain ⟨d, hd1, hd2⟩ := bindOutcome_eq_ok _ _ _ h
    cases d with
    | arr items =>
      simp only [listModelsData] at hd2
      rcases hstamp : stampModels pkg items with _ | stamped <;>
        simp only [hstamp] at hd2
      · exact Outcome.noConfusion hd2
      · rcases hdec : decodeModels stamped with _ | ms0 <;>
          simp only [hdec] at hd2
        · exact Outcome.noConfusion hd2
        · injection hd2 with hd2
          subst hd2
          exact stampModels_decodeModels_package_name pkg items stamped ms0
            hstamp hdec
    | null => simp only [listModelsData] at hd2; exact Outcome.noConfusion hd2
    | bool b => simp only [listModelsData] at hd2; exact Outcome.noConfusion hd2
    | num n => simp only [listModelsData] at hd2; exact Outcome.noConfusion hd2
    | str s => simp only [listModelsData] at hd2; exact Outcome.noConfusion hd2
    | obj fs => simp only [listModelsData] at hd2; exact Outcome.noConfusion hd2

/-- Witness for C7: a wire model with modelPath a/b.malloy decoded by
get_model, and a one-element list_models response. -/
theorem get_model_rename_and_stamp_witness :
    ((Model.mk "faa" "a/b.malloy" ModelType.source).package_name = "faa" ∧
      List.lookup "modelPath"
        [("modelPath", Json.str "a/b.malloy"), ("type", Json.str "source")] =
        some (Json.str (Model.mk "faa" "a/b.malloy" ModelType.source).path)) ∧
    (Model.mk "faa" "m1.malloy" ModelType.source).package_name = "faa" :=
  ⟨get_model_rename_and_stamp.1 "faa" 200
      [("modelPath", Json.str "a/b.malloy"), ("type", Json.str "source")]
      (Model.mk "faa" "a/b.malloy" ModelType.source) rfl,
    get_model_rename_and_stamp.2 "faa" 200
      (Body.json (Json.arr
        [Json.obj [("path", Json.str "m1.malloy"), ("type", Json.str "source")]]))
      [Model.mk "faa" "m1.malloy" ModelType.source] rfl
      (Model.mk "faa" "m1.malloy" ModelType.source)
      (List.mem_singleton.mpr rfl)⟩

/-- A concrete client handle for instantiating the close property. -/
def localClient : MalloyAPIClient :=
  { base_url := "http://localhost:4000", api_key := none,
    client := { is_closed := false } }

/-- Witness for C9 at a concrete client and exception. -/
theorem close_idempotent_and_scoped_witness :
    localClient.close.close = localClient.close ∧
    localClient.close.client.is_closed = true ∧
    withClient localClient (WithExit.raised "boom") =
      (localClient.close, 1, WithExit.raised "boom") ∧
    withClient localClient WithExit.normal =
      (localClient.close, 1, WithExit.normal) :=
  close_idempotent_and_scoped localClient "boom"

/-- Witness for C10 at version_id = some "". -/
theorem versionId_param_truthiness_witness :
    ((∃ v, ("versionId", v) ∈ get_package_params (some "")) ↔
      (∃ s, (some "" : Option String) = some s ∧ s ≠ "")) ∧
    list_models_params (some "") = get_package_params (some "") ∧
    list_databases_params (some "") = get_package_params (some "") ∧
    list_schedules_params (some "") = get_package_params (some "") ∧
    get_package_params (some "") = [] ∧
    executeQueryRequest
      (QueryParams.mk "home" "faa" "flights.malloy" none none none (some "")) =
      Except.ok [("versionId", "")] :=
  versionId_param_truthiness (some "") "home" "faa" "flights.malloy"
